import Mathlib

/-!
Shallow embedding of the incident-management portal (`app.py`).

The data model mirrors the SQLAlchemy models `User` and `Incident`; the
route handlers `create_incident` and `update_incident` are translated as
pure functions from a store, an authenticated actor and the request's form
fields to a result carrying the new store, the flashed messages and the
notification events handed to the mailer.  Timestamps are abstracted to a
`Nat` supplied by the caller (the source uses `datetime.utcnow`).
-/

namespace IMS

/-- `User` model: id, username, role (1=Manager, 2=Technician, 3=Reporter),
email (empty string allowed, the default). -/
structure User where
  id : Nat
  username : String
  role : Nat
  email : String
deriving Repr, DecidableEq

/-- `Incident` model: title/description, status (default "New"),
priority (default "Medium"), creation time, reporter and optional assignee
foreign keys. -/
structure Incident where
  id : Nat
  title : String
  description : String
  status : String
  priority : String
  created_at : Nat
  reporter_id : Nat
  assigned_to_id : Option Nat
deriving Repr, DecidableEq

/-- The persistence store: the `user` and `incident` tables. -/
structure Store where
  users : List User
  incidents : List Incident
deriving Repr, DecidableEq

/-- `User.query.filter_by(id=uid).first()` / `db.session.get(User, uid)`. -/
def findUser (s : Store) (uid : Nat) : Option User :=
  s.users.find? (fun u => u.id == uid)

/-- `db.session.get(Incident, iid)`. -/
def findIncident (s : Store) (iid : Nat) : Option Incident :=
  s.incidents.find? (fun i => i.id == iid)

/-- `db.session.commit()` after mutating one incident object: the row with
that id now holds the mutated record. -/
def saveIncident (s : Store) (inc : Incident) : Store :=
  { s with incidents := s.incidents.map (fun i => if i.id == inc.id then inc else i) }

/-- `is_manager()`: authenticated user with role 1. -/
def is_manager (u : User) : Bool :=
  u.role == 1

/-- `is_technician()`: authenticated user with role 1 or 2. -/
def is_technician (u : User) : Bool :=
  u.role == 1 || u.role == 2

/-- The flash messages the two routes can emit, one constructor per
`flash(...)` call site. -/
inductive Flash where
  | allFieldsRequired
  | incidentCreated (title : String)
  | incidentNotFound
  | permissionDeniedUpdate
  | statusUpdated (iid : Nat) (status : String)
  | permissionDeniedAssign
  | assignmentNotificationSent (username : String)
deriving Repr, DecidableEq

/-- The notification events handed to `send_notification`, one constructor
per call site (each carries the recipient's email and the incident id). -/
inductive Notification where
  | newIncident (recipient : String) (iid : Nat)
  | assigned (recipient : String) (iid : Nat)
  | unassigned (recipient : String) (iid : Nat)
  | statusChangedReporter (recipient : String) (iid : Nat) (status : String)
  | statusChangedAssignee (recipient : String) (iid : Nat) (status : String)
deriving Repr, DecidableEq

/-- Outcome of a mutating route: the committed store, the flashed messages
and the queued notification events. -/
structure RouteResult where
  store : Store
  flashes : List Flash
  notifications : List Notification
deriving Repr, DecidableEq

/-- Form body of the update route; `none` models an absent field,
`some v` a present field with value `v` (possibly the empty string). -/
structure UpdateForm where
  status : Option String
  assigned_to_id : Option String
deriving Repr, DecidableEq

/-- Form body of the create route. -/
structure CreateForm where
  title : Option String
  description : Option String
  priority : Option String
deriving Repr, DecidableEq

/-- Python truthiness test `not field` on `request.form.get(...)`:
true when the field is absent or the empty string. -/
def isBlank : Option String → Bool
  | none => true
  | some v => v == ""

/-- `v.isdigit()`: true iff `v` is non-empty and all characters are digits
(working over the string's character list so that it evaluates). -/
def isDigits (v : String) : Bool :=
  !v.data.isEmpty && v.data.all Char.isDigit

/-- `int(v)` on an all-digit string, via its character list. -/
def digitsToNat (v : String) : Nat :=
  v.data.foldl (fun n c => n * 10 + (c.toNat - 48)) 0

/-- Line 207: `int(v) if v and v.isdigit() and int(v) > 0 else None`. -/
def resolveAssignee (v : String) : Option Nat :=
  if isDigits v && digitsToNat v > 0 then some (digitsToNat v) else none

/-- Lines 200-203: apply the status portion of the update; the status is
changed iff the field is a non-empty string different from the current
status, flashing a confirmation when it is. -/
def applyStatus (iid : Nat) (inc : Incident) (newStatus : Option String) :
    Incident × List Flash :=
  match newStatus with
  | none => (inc, [])
  | some ns =>
    if ns ≠ "" ∧ ns ≠ inc.status then
      ({ inc with status := ns }, [Flash.statusUpdated iid ns])
    else (inc, [])

/-- Lines 205-215: apply the assignment portion of the update.  The block
runs only when the field is present; the resolved target is applied when it
differs from the current assignee and the actor is a manager or the target
is the actor's own id, otherwise a permission-denied flash is emitted
(returned here as the `Bool` component). -/
def applyAssign (actor : User) (inc : Incident) (field : Option String) :
    Incident × Bool :=
  match field with
  | none => (inc, false)
  | some v =>
    let target := resolveAssignee v
    if target ≠ inc.assigned_to_id then
      if is_manager actor || target == some actor.id then
        ({ inc with assigned_to_id := target }, false)
      else (inc, true)
    else (inc, false)

/-- Lines 221-240: assignment-change notifications, computed from the
committed incident against the pre-update assignee.  Also returns the
"notification sent" flash emitted in the newly-assigned branch. -/
def assignmentNotifs (s : Store) (iid : Nat) (oldAssignee : Option Nat)
    (inc : Incident) : List Notification × List Flash :=
  if inc.assigned_to_id ≠ oldAssignee then
    match inc.assigned_to_id with
    | some aid =>
      match findUser s aid with
      | some au =>
        if au.email ≠ "" then
          ([Notification.assigned au.email iid],
           [Flash.assignmentNotificationSent au.username])
        else ([], [])
      | none => ([], [])
    | none =>
      match oldAssignee with
      | some oid =>
        match findUser s oid with
        | some ou =>
          if ou.email ≠ "" then ([Notification.unassigned ou.email iid], [])
          else ([], [])
        | none => ([], [])
      | none => ([], [])
  else ([], [])

/-- Lines 244-252: on a status change, the reporter is notified when the
lookup of `reporter_id` succeeds and the account has a non-empty email. -/
def statusNotifReporter (s : Store) (iid : Nat) (inc : Incident) :
    List Notification :=
  match findUser s inc.reporter_id with
  | some rep =>
    if rep.email ≠ "" then
      [Notification.statusChangedReporter rep.email iid inc.status]
    else []
  | none => []

/-- Lines 254-260: on a status change, the committed assignee is additionally
notified when set, different from the acting user, found, and with a
non-empty email. -/
def statusNotifAssignee (s : Store) (actor : User) (iid : Nat)
    (inc : Incident) : List Notification :=
  match inc.assigned_to_id with
  | some aid =>
    if aid ≠ actor.id then
      match findUser s aid with
      | some au =>
        if au.email ≠ "" then
          [Notification.statusChangedAssignee au.email iid inc.status]
        else []
      | none => []
    else []
  | none => []

/-- Lines 242-260: status-change notifications, computed from the committed
incident against the pre-update status. -/
def statusNotifs (s : Store) (actor : User) (iid : Nat) (oldStatus : String)
    (inc : Incident) : List Notification :=
  if inc.status ≠ oldStatus then
    statusNotifReporter s iid inc ++ statusNotifAssignee s actor iid inc
  else []

/-- Lines 180-262: the update route.  Looks up the incident, checks the
technician permission, applies the status portion then the assignment
portion, commits once, and derives the notification events from the
committed state. -/
def update_incident (s : Store) (actor : User) (iid : Nat)
    (form : UpdateForm) : RouteResult :=
  match findIncident s iid with
  | none => ⟨s, [Flash.incidentNotFound], []⟩
  | some incident =>
    if is_technician actor then
      let stRes := applyStatus iid incident form.status
      let asRes := applyAssign actor stRes.1 form.assigned_to_id
      let committed := saveIncident s asRes.1
      let asNotifs := assignmentNotifs committed iid incident.assigned_to_id asRes.1
      ⟨committed,
       stRes.2 ++ (if asRes.2 then [Flash.permissionDeniedAssign] else []) ++ asNotifs.2,
       asNotifs.1 ++ statusNotifs committed actor iid incident.status asRes.1⟩
    else ⟨s, [Flash.permissionDeniedUpdate], []⟩

/-- Autoincrement primary key for a fresh incident row. -/
def freshIncidentId (s : Store) : Nat :=
  (s.incidents.map (fun i => i.id)).foldr Nat.max 0 + 1

/-- Lines 140-177: the create route.  Rejects when title, description or
priority is absent or empty; otherwise persists a new incident with status
"New", reporter the acting user and no assignee, and queues a notification
to every role-1 user with a non-empty email. -/
def create_incident (s : Store) (actor : User) (now : Nat)
    (form : CreateForm) : RouteResult :=
  if isBlank form.title || isBlank form.description || isBlank form.priority then
    ⟨s, [Flash.allFieldsRequired], []⟩
  else
    let title := form.title.getD ""
    let newInc : Incident :=
      { id := freshIncidentId s
        title := title
        description := form.description.getD ""
        status := "New"
        priority := form.priority.getD ""
        created_at := now
        reporter_id := actor.id
        assigned_to_id := none }
    let committed : Store := { s with incidents := s.incidents ++ [newInc] }
    let recipients := s.users.filter (fun u => u.role == 1 && u.email != "")
    ⟨committed,
     [Flash.incidentCreated title],
     recipients.map (fun u => Notification.newIncident u.email newInc.id)⟩

/-- One client request against the store (ignoring flashes and mail). -/
inductive Op where
  | create (actor : User) (now : Nat) (form : CreateForm)
  | update (actor : User) (iid : Nat) (form : UpdateForm)
deriving Repr, DecidableEq

/-- The store after one request. -/
def applyOp (s : Store) : Op → Store
  | Op.create a n f => (create_incident s a n f).store
  | Op.update a i f => (update_incident s a i f).store

/-- The store after a sequence of requests. -/
def runOps (s : Store) (ops : List Op) : Store :=
  ops.foldl applyOp s

/-- The four enumerated status values of the spec. -/
def statusOk (st : String) : Prop :=
  st = "New" ∨ st = "InProgress" ∨ st = "Resolved" ∨ st = "Closed"

instance (st : String) : Decidable (statusOk st) := by
  unfold statusOk; infer_instance

/-- True of an incident-update notification event that announces a status
change (to the reporter or to the assignee). -/
def isStatusNotif : Notification → Bool
  | Notification.statusChangedReporter _ _ _ => true
  | Notification.statusChangedAssignee _ _ _ => true
  | _ => false

/-- A request whose posted status field, if present, is empty or one of the
four enumerated values. -/
def opStatusOk : Op → Prop
  | Op.create _ _ _ => True
  | Op.update _ _ f =>
    match f.status with
    | none => True
    | some v => v = "" ∨ statusOk v

/-- Every persisted assignee reference points to a user in the store. -/
def assigneeInv (s : Store) : Prop :=
  ∀ inc ∈ s.incidents, ∀ a, inc.assigned_to_id = some a →
    ∃ u ∈ s.users, u.id = a

/-- A request whose posted assignment field, when it resolves to a user id,
names an existing user. -/
def opAssigneeOk (users : List User) : Op → Prop
  | Op.create _ _ _ => True
  | Op.update _ _ f =>
    match f.assigned_to_id with
    | none => True
    | some v =>
      match resolveAssignee v with
      | none => True
      | some t => ∃ u ∈ users, u.id = t

/-- Seeded manager account (role 1). -/
def adminUser : User := ⟨1, "admin", 1, "admin@x.com"⟩

/-- Seeded technician account (role 2). -/
def aliceUser : User := ⟨2, "tech_alice", 2, "alice@x.com"⟩

/-- Seeded reporter account (role 3). -/
def bobUser : User := ⟨3, "reporter_bob", 3, "bob@x.com"⟩

/-- A persisted incident reported by bob, in progress, assigned to alice. -/
def incidentOne : Incident :=
  ⟨1, "Disk full", "root fs at 100 percent", "InProgress", "High", 10, 3, some 2⟩

/-- A persisted incident reported by bob, new, unassigned. -/
def incidentTwo : Incident :=
  ⟨1, "Printer jam", "tray 2 stuck", "New", "Medium", 10, 3, none⟩

/-- Store with the three seeded users and `incidentOne`. -/
def storeOne : Store := ⟨[adminUser, aliceUser, bobUser], [incidentOne]⟩

/-- Store with the three seeded users and `incidentTwo`. -/
def storeTwo : Store := ⟨[adminUser, aliceUser, bobUser], [incidentTwo]⟩

/-- Store with the three seeded users and no incidents. -/
def storeEmpty : Store := ⟨[adminUser, aliceUser, bobUser], []⟩

end IMS

namespace IMS

/-! ### Basic lemmas about the embedded operations -/

/-- The record returned by a successful incident lookup carries the looked-up
id. -/
theorem findIncident_id (s : Store) (iid : Nat) (inc : Incident)
    (h : findIncident s iid = some inc) : inc.id = iid := by
  unfold findIncident at h
  have := List.find?_some h
  simpa using this

/-- Replacing the row of a found incident by a record with the same id makes
the lookup return the replacement. -/
theorem find_replace (l : List Incident) (iid : Nat) (inc inc' : Incident)
    (hid : inc'.id = iid) (h : l.find? (fun i => i.id == iid) = some inc) :
    (l.map (fun i => if i.id == inc'.id then inc' else i)).find?
      (fun i => i.id == iid) = some inc' := by
  induction l with
  | nil => simp at h
  | cons a t ih =>
    simp only [List.map_cons]
    by_cases ha : a.id = iid
    · have h1 : (if a.id == inc'.id then inc' else a) = inc' := by
        simp [ha, hid]
      rw [h1, List.find?_cons_of_pos]
      simp [hid]
    · have h1 : (if a.id == inc'.id then inc' else a) = a := by
        simp [hid, ha]
      rw [h1, List.find?_cons_of_neg]
      · apply ih
        rw [List.find?_cons_of_neg] at h
        · exact h
        · simp [ha]
      · simp [ha]

/-- A committed update leaves the user table untouched. -/
theorem saveIncident_users (s : Store) (inc : Incident) :
    (saveIncident s inc).users = s.users := rfl

/-- `applyStatus` can only touch the `status` field. -/
theorem applyStatus_shape (iid : Nat) (inc : Incident) (ns : Option String) :
    (applyStatus iid inc ns).1 =
      { inc with status := (applyStatus iid inc ns).1.status } := by
  unfold applyStatus
  cases ns with
  | none => rfl
  | some v =>
    by_cases h : v ≠ "" ∧ v ≠ inc.status <;> simp [h]

/-- `applyAssign` can only touch the `assigned_to_id` field. -/
theorem applyAssign_shape (actor : User) (inc : Incident) (f : Option String) :
    (applyAssign actor inc f).1 =
      { inc with assigned_to_id := (applyAssign actor inc f).1.assigned_to_id } := by
  unfold applyAssign
  cases f with
  | none => rfl
  | some v =>
    by_cases h1 : resolveAssignee v ≠ inc.assigned_to_id
    · by_cases h2 : (is_manager actor || resolveAssignee v == some actor.id) = true <;>
        simp [h1, h2]
    · simp [h1]

/-- Unfolding of `update_incident` in the found-and-permitted case. -/
theorem update_incident_tech (s : Store) (actor : User) (iid : Nat)
    (form : UpdateForm) (inc : Incident)
    (hfind : findIncident s iid = some inc)
    (htech : is_technician actor = true) :
    update_incident s actor iid form =
      ⟨saveIncident s (applyAssign actor (applyStatus iid inc form.status).1 form.assigned_to_id).1,
       (applyStatus iid inc form.status).2 ++
         (if (applyAssign actor (applyStatus iid inc form.status).1 form.assigned_to_id).2 then
            [Flash.permissionDeniedAssign] else []) ++
         (assignmentNotifs
            (saveIncident s (applyAssign actor (applyStatus iid inc form.status).1 form.assigned_to_id).1)
            iid inc.assigned_to_id
            (applyAssign actor (applyStatus iid inc form.status).1 form.assigned_to_id).1).2,
       (assignmentNotifs
          (saveIncident s (applyAssign actor (applyStatus iid inc form.status).1 form.assigned_to_id).1)
          iid inc.assigned_to_id
          (applyAssign actor (applyStatus iid inc form.status).1 form.assigned_to_id).1).1 ++
         statusNotifs
           (saveIncident s (applyAssign actor (applyStatus iid inc form.status).1 form.assigned_to_id).1)
           actor iid inc.status
           (applyAssign actor (applyStatus iid inc form.status).1 form.assigned_to_id).1⟩ := by
  unfold update_incident
  rw [hfind]
  simp [htech]

/-- The committed row after a permitted update is the merged record produced
by the status portion followed by the assignment portion. -/
theorem update_incident_committed (s : Store) (actor : User) (iid : Nat)
    (form : UpdateForm) (inc : Incident)
    (hfind : findIncident s iid = some inc)
    (htech : is_technician actor = true) :
    findIncident (update_incident s actor iid form).store iid =
      some (applyAssign actor (applyStatus iid inc form.status).1 form.assigned_to_id).1 := by
  rw [update_incident_tech s actor iid form inc hfind htech]
  have hid : (applyAssign actor (applyStatus iid inc form.status).1 form.assigned_to_id).1.id = iid := by
    rw [applyAssign_shape]
    have h1 : (applyStatus iid inc form.status).1.id = inc.id := by
      rw [applyStatus_shape]
    simpa [h1] using findIncident_id s iid inc hfind
  unfold findIncident saveIncident at *
  exact find_replace s.incidents iid inc _ hid hfind

/-- Unfolding of `update_incident` when the permission check fails. -/
theorem update_incident_denied (s : Store) (actor : User) (iid : Nat)
    (form : UpdateForm) (inc : Incident)
    (hfind : findIncident s iid = some inc)
    (htech : is_technician actor = false) :
    update_incident s actor iid form = ⟨s, [Flash.permissionDeniedUpdate], []⟩ := by
  unfold update_incident
  rw [hfind]
  simp [htech]

/-- A manager passes the technician check. -/
theorem manager_is_technician (u : User) (h : is_manager u = true) :
    is_technician u = true := by
  unfold is_manager at h
  unfold is_technician
  simp [h]

/-- A committed update does not change user lookups. -/
theorem findUser_save (s : Store) (inc : Incident) (uid : Nat) :
    findUser (saveIncident s inc) uid = findUser s uid := rfl

/-- Status portion when a non-empty, different status is posted. -/
theorem applyStatus_change (iid : Nat) (inc : Incident) (ns : String)
    (h1 : ns ≠ "") (h2 : ns ≠ inc.status) :
    applyStatus iid inc (some ns) =
      ({ inc with status := ns }, [Flash.statusUpdated iid ns]) := by
  simp [applyStatus, h1, h2]

/-- Status portion when the posted status is empty or equal to the current
one: nothing happens. -/
theorem applyStatus_same (iid : Nat) (inc : Incident) (ns : String)
    (h : ns = "" ∨ ns = inc.status) :
    applyStatus iid inc (some ns) = (inc, []) := by
  unfold applyStatus
  rcases h with h | h <;> simp [h]

/-- Assignment portion when the target differs and the actor is neither a
manager nor the target: rejected with the permission flash. -/
theorem applyAssign_denied (actor : User) (inc : Incident) (v : String)
    (hch : resolveAssignee v ≠ inc.assigned_to_id)
    (hmgr : is_manager actor = false)
    (hself : resolveAssignee v ≠ some actor.id) :
    applyAssign actor inc (some v) = (inc, true) := by
  simp [applyAssign, hch, hmgr, hself]

/-- Assignment portion when the target differs and the actor is a manager or
the target is the actor: applied. -/
theorem applyAssign_granted (actor : User) (inc : Incident) (v : String)
    (hch : resolveAssignee v ≠ inc.assigned_to_id)
    (hok : is_manager actor = true ∨ resolveAssignee v = some actor.id) :
    applyAssign actor inc (some v) =
      ({ inc with assigned_to_id := resolveAssignee v }, false) := by
  have hcond : (is_manager actor || resolveAssignee v == some actor.id) = true := by
    rcases hok with h | h <;> simp [h]
  unfold applyAssign
  simp [hch, hcond]

/-- Assignment portion when the resolved target equals the current assignee:
nothing happens. -/
theorem applyAssign_same (actor : User) (inc : Incident) (v : String)
    (hch : resolveAssignee v = inc.assigned_to_id) :
    applyAssign actor inc (some v) = (inc, false) := by
  simp [applyAssign, hch]

/-- All fields other than `status` survive the status portion. -/
theorem applyStatus_frame (iid : Nat) (inc : Incident) (ns : Option String) :
    (applyStatus iid inc ns).1.reporter_id = inc.reporter_id ∧
    (applyStatus iid inc ns).1.priority = inc.priority ∧
    (applyStatus iid inc ns).1.created_at = inc.created_at ∧
    (applyStatus iid inc ns).1.assigned_to_id = inc.assigned_to_id ∧
    (applyStatus iid inc ns).1.id = inc.id ∧
    (applyStatus iid inc ns).1.title = inc.title ∧
    (applyStatus iid inc ns).1.description = inc.description := by
  rw [applyStatus_shape iid inc ns]
  exact ⟨rfl, rfl, rfl, rfl, rfl, rfl, rfl⟩

/-- All fields other than `assigned_to_id` survive the assignment portion. -/
theorem applyAssign_frame (actor : User) (inc : Incident) (f : Option String) :
    (applyAssign actor inc f).1.reporter_id = inc.reporter_id ∧
    (applyAssign actor inc f).1.priority = inc.priority ∧
    (applyAssign actor inc f).1.created_at = inc.created_at ∧
    (applyAssign actor inc f).1.status = inc.status ∧
    (applyAssign actor inc f).1.id = inc.id ∧
    (applyAssign actor inc f).1.title = inc.title ∧
    (applyAssign actor inc f).1.description = inc.description := by
  rw [applyAssign_shape actor inc f]
  exact ⟨rfl, rfl, rfl, rfl, rfl, rfl, rfl⟩

/-- Assignment-change notifications are never status-change notifications. -/
theorem assignmentNotifs_not_status (s : Store) (iid : Nat)
    (oldA : Option Nat) (inc : Incident) (n : Notification)
    (h : n ∈ (assignmentNotifs s iid oldA inc).1) :
    isStatusNotif n = false := by
  unfold assignmentNotifs at h
  by_cases hch : inc.assigned_to_id ≠ oldA
  · cases hA : inc.assigned_to_id with
    | some aid =>
      rw [hA] at hch
      cases hau : findUser s aid with
      | some au =>
        by_cases he : au.email = ""
        · simp [hch, hA, hau, he] at h
        · simp [hch, hA, hau, he] at h
          subst h
          rfl
      | none => simp [hch, hA, hau] at h
    | none =>
      rw [hA] at hch
      cases hO : oldA with
      | some oid =>
        rw [hO] at hch
        cases hou : findUser s oid with
        | some ou =>
          by_cases he : ou.email = ""
          · simp [hch, hA, hO, hou, he] at h
          · simp [hch, hA, hO, hou, he] at h
            subst h
            rfl
        | none => simp [hch, hA, hO, hou] at h
      | none =>
        rw [hO] at hch
        exact absurd rfl hch
  · simp [hch] at h

/-- Every element of the reporter status-notification list is a reporter
status notification for the committed status. -/
theorem statusNotifReporter_only (s : Store) (iid : Nat) (inc : Incident)
    (n : Notification) (h : n ∈ statusNotifReporter s iid inc) :
    ∃ e, n = Notification.statusChangedReporter e iid inc.status := by
  unfold statusNotifReporter at h
  repeat split at h
  all_goals simp_all

/-- Every element of the assignee status-notification list is an assignee
status notification for the committed status. -/
theorem statusNotifAssignee_only (s : Store) (actor : User) (iid : Nat)
    (inc : Incident) (n : Notification)
    (h : n ∈ statusNotifAssignee s actor iid inc) :
    ∃ e, n = Notification.statusChangedAssignee e iid inc.status := by
  unfold statusNotifAssignee at h
  repeat split at h
  all_goals simp_all

/-- The reporter is status-notified exactly when the reporter lookup succeeds
with a non-empty email. -/
theorem statusNotifReporter_iff (s : Store) (iid : Nat) (inc : Incident) :
    (∃ e, Notification.statusChangedReporter e iid inc.status ∈
        statusNotifReporter s iid inc) ↔
      ∃ rep, findUser s inc.reporter_id = some rep ∧ rep.email ≠ "" := by
  unfold statusNotifReporter
  cases hrep : findUser s inc.reporter_id with
  | none => simp
  | some rep => by_cases he : rep.email = "" <;> simp [he]

/-- The assignee is status-notified exactly when the committed assignee is
set, is not the actor, and resolves to an account with a non-empty email. -/
theorem statusNotifAssignee_iff (s : Store) (actor : User) (iid : Nat)
    (inc : Incident) :
    (∃ e, Notification.statusChangedAssignee e iid inc.status ∈
        statusNotifAssignee s actor iid inc) ↔
      ∃ aid au, inc.assigned_to_id = some aid ∧ aid ≠ actor.id ∧
        findUser s aid = some au ∧ au.email ≠ "" := by
  unfold statusNotifAssignee
  cases haid : inc.assigned_to_id with
  | none => simp
  | some aid =>
    by_cases hne : aid = actor.id
    · simp [hne]
    · cases hau : findUser s aid with
      | none => simp [hne, hau]
      | some au => by_cases he : au.email = "" <;> simp [hne, hau, he]

/-- No status-change notification is derived when the committed status equals
the pre-update status. -/
theorem statusNotifs_same (s : Store) (actor : User) (iid : Nat)
    (oldSt : String) (inc : Incident) (h : inc.status = oldSt) :
    statusNotifs s actor iid oldSt inc = [] := by
  simp [statusNotifs, h]

/-- Expansion of the status-notification derivation on a status change. -/
theorem statusNotifs_changed (s : Store) (actor : User) (iid : Nat)
    (oldSt : String) (inc : Incident) (h : inc.status ≠ oldSt) :
    statusNotifs s actor iid oldSt inc =
      statusNotifReporter s iid inc ++ statusNotifAssignee s actor iid inc := by
  simp [statusNotifs, h]

/-- Committing an incident does not change the reporter-notification
derivation, which only reads the user table. -/
theorem statusNotifReporter_save (s : Store) (x : Incident) (iid : Nat)
    (inc : Incident) :
    statusNotifReporter (saveIncident s x) iid inc =
      statusNotifReporter s iid inc := rfl

/-- Committing an incident does not change the assignee-notification
derivation, which only reads the user table. -/
theorem statusNotifAssignee_save (s : Store) (x : Incident) (actor : User)
    (iid : Nat) (inc : Incident) :
    statusNotifAssignee (saveIncident s x) actor iid inc =
      statusNotifAssignee s actor iid inc := rfl

/-- Every row of a committed store is an original row or the committed
record. -/
theorem mem_saveIncident (s : Store) (m : Incident) (x : Incident)
    (hx : x ∈ (saveIncident s m).incidents) : x ∈ s.incidents ∨ x = m := by
  unfold saveIncident at hx
  simp only [List.mem_map] at hx
  obtain ⟨y, hy, hxy⟩ := hx
  by_cases h : y.id = m.id
  · right
    rw [← hxy]
    simp [h]
  · left
    rw [← hxy]
    simpa [h] using hy

/-- The update route leaves the user table untouched. -/
theorem update_incident_users (s : Store) (actor : User) (iid : Nat)
    (form : UpdateForm) :
    (update_incident s actor iid form).store.users = s.users := by
  unfold update_incident
  cases hfind : findIncident s iid with
  | none => rfl
  | some inc => cases htech : is_technician actor <;> simp [htech, saveIncident]

/-- The create route leaves the user table untouched. -/
theorem create_incident_users (s : Store) (actor : User) (now : Nat)
    (form : CreateForm) :
    (create_incident s actor now form).store.users = s.users := by
  unfold create_incident
  by_cases h : (isBlank form.title || isBlank form.description ||
    isBlank form.priority) = true <;> simp [h]

/-- No request changes the user table. -/
theorem applyOp_users (s : Store) (op : Op) :
    (applyOp s op).users = s.users := by
  cases op with
  | create a n f => exact create_incident_users s a n f
  | update a i f => exact update_incident_users s a i f

/-- The incident table after a create: unchanged on validation failure,
otherwise extended with one new unassigned incident with status "New". -/
theorem create_incident_incidents (s : Store) (actor : User) (now : Nat)
    (form : CreateForm) :
    (create_incident s actor now form).store.incidents = s.incidents ∨
    ∃ newInc, (create_incident s actor now form).store.incidents =
        s.incidents ++ [newInc] ∧
      newInc.status = "New" ∧ newInc.assigned_to_id = none := by
  unfold create_incident
  by_cases h : (isBlank form.title || isBlank form.description ||
    isBlank form.priority) = true
  · left
    simp [h]
  · right
    refine ⟨{ id := freshIncidentId s
              title := form.title.getD ""
              description := form.description.getD ""
              status := "New"
              priority := form.priority.getD ""
              created_at := now
              reporter_id := actor.id
              assigned_to_id := none }, ?_, rfl, rfl⟩
    simp [h]

/-- The status portion yields a status that was already persisted or was the
posted value. -/
theorem applyStatus_statusOk (iid : Nat) (inc : Incident) (f : Option String)
    (hinc : statusOk inc.status)
    (hf : ∀ v, f = some v → v = "" ∨ statusOk v) :
    statusOk (applyStatus iid inc f).1.status := by
  unfold applyStatus
  cases f with
  | none => exact hinc
  | some v =>
    by_cases h : v ≠ "" ∧ v ≠ inc.status
    · rcases hf v rfl with h1 | h1
      · exact absurd h1 h.1
      · simpa [h] using h1
    · simpa [h] using hinc

/-- The assignment portion leaves the assignee unchanged or writes the
resolved target of the posted field. -/
theorem applyAssign_assigned_cases (actor : User) (inc : Incident)
    (f : Option String) :
    (applyAssign actor inc f).1.assigned_to_id = inc.assigned_to_id ∨
    ∃ v, f = some v ∧
      (applyAssign actor inc f).1.assigned_to_id = resolveAssignee v := by
  unfold applyAssign
  cases f with
  | none => left; rfl
  | some v =>
    by_cases h1 : resolveAssignee v ≠ inc.assigned_to_id
    · by_cases h2 : (is_manager actor || resolveAssignee v == some actor.id) = true
      · right
        exact ⟨v, rfl, by simp [h1, h2]⟩
      · left
        simp [h1, h2]
    · left
      simp [h1]

/-- One update preserves the status-enumeration invariant provided the
posted status, if present, is empty or enumerated. -/
theorem update_incident_statusOk (s : Store) (actor : User) (iid : Nat)
    (form : UpdateForm)
    (hs : ∀ inc ∈ s.incidents, statusOk inc.status)
    (hf : ∀ v, form.status = some v → v = "" ∨ statusOk v) :
    ∀ inc ∈ (update_incident s actor iid form).store.incidents,
      statusOk inc.status := by
  cases hfind : findIncident s iid with
  | none =>
    unfold update_incident
    rw [hfind]
    exact hs
  | some inc0 =>
    cases htech : is_technician actor with
    | false =>
      rw [update_incident_denied s actor iid form inc0 hfind htech]
      exact hs
    | true =>
      rw [update_incident_tech s actor iid form inc0 hfind htech]
      intro x hx
      rcases mem_saveIncident s _ x hx with h | h
      · exact hs x h
      · have hinc0 : inc0 ∈ s.incidents := by
          unfold findIncident at hfind
          exact List.mem_of_find?_eq_some hfind
        have h1 : statusOk (applyStatus iid inc0 form.status).1.status :=
          applyStatus_statusOk iid inc0 form.status (hs inc0 hinc0) hf
        rw [h, (applyAssign_frame actor _ form.assigned_to_id).2.2.2.1]
        exact h1

/-- One create preserves the status-enumeration invariant: the new incident
is always persisted with status "New". -/
theorem create_incident_statusOk (s : Store) (actor : User) (now : Nat)
    (form : CreateForm)
    (hs : ∀ inc ∈ s.incidents, statusOk inc.status) :
    ∀ inc ∈ (create_incident s actor now form).store.incidents,
      statusOk inc.status := by
  rcases create_incident_incidents s actor now form with h | ⟨newInc, heq, hnew, _⟩
  · rw [h]
    exact hs
  · rw [heq]
    intro x hx
    rcases List.mem_append.mp hx with h1 | h1
    · exact hs x h1
    · rw [List.mem_singleton.mp h1, hnew]
      left
      rfl

/-- One update preserves the assignee-reference invariant provided any
resolved assignment target names an existing user. -/
theorem update_incident_assigneeInv (s : Store) (actor : User) (iid : Nat)
    (form : UpdateForm)
    (hs : assigneeInv s)
    (hf : ∀ v t, form.assigned_to_id = some v → resolveAssignee v = some t →
      ∃ u ∈ s.users, u.id = t) :
    assigneeInv (update_incident s actor iid form).store := by
  cases hfind : findIncident s iid with
  | none =>
    unfold update_incident
    rw [hfind]
    exact hs
  | some inc0 =>
    cases htech : is_technician actor with
    | false =>
      rw [update_incident_denied s actor iid form inc0 hfind htech]
      exact hs
    | true =>
      rw [update_incident_tech s actor iid form inc0 hfind htech]
      intro x hx a ha
      rcases mem_saveIncident s _ x hx with h | h
      · exact hs x h a ha
      · rw [h] at ha
        rcases applyAssign_assigned_cases actor (applyStatus iid inc0 form.status).1
            form.assigned_to_id with hcase | ⟨v, hv, hcase⟩
        · rw [hcase, (applyStatus_frame iid inc0 form.status).2.2.2.1] at ha
          have hinc0 : inc0 ∈ s.incidents := by
            unfold findIncident at hfind
            exact List.mem_of_find?_eq_some hfind
          exact hs inc0 hinc0 a ha
        · rw [hcase] at ha
          exact hf v a hv ha

/-- One create preserves the assignee-reference invariant: the new incident
is persisted unassigned. -/
theorem create_incident_assigneeInv (s : Store) (actor : User) (now : Nat)
    (form : CreateForm) (hs : assigneeInv s) :
    assigneeInv (create_incident s actor now form).store := by
  intro x hx a ha
  rw [create_incident_users]
  rcases create_incident_incidents s actor now form with h | ⟨newInc, heq, _, hnone⟩
  · rw [h] at hx
    exact hs x hx a ha
  · rw [heq] at hx
    rcases List.mem_append.mp hx with h1 | h1
    · exact hs x h1 a ha
    · rw [List.mem_singleton.mp h1] at ha
      rw [hnone] at ha
      exact absurd ha (by simp)

/-! ### Claim theorems -/

/-- C1: a technician's update that both changes the status and assigns to a
user other than themselves commits the status change to the store while the
assignment portion is rejected with a permission-denied flash: the two
sub-changes are handled separately, not as one atomic transaction. -/
theorem c1_split_commit (s : Store) (actor : User) (iid : Nat)
    (inc : Incident) (ns sv : String) (t : Nat)
    (hfind : findIncident s iid = some inc)
    (hrole : actor.role = 2)
    (hns : ns ≠ "") (hdiff : ns ≠ inc.status)
    (ht : resolveAssignee sv = some t)
    (hother : t ≠ actor.id)
    (hchange : some t ≠ inc.assigned_to_id) :
    findIncident (update_incident s actor iid ⟨some ns, some sv⟩).store iid =
      some { inc with status := ns } ∧
    Flash.permissionDeniedAssign ∈
      (update_incident s actor iid ⟨some ns, some sv⟩).flashes := by
  have htech : is_technician actor = true := by simp [is_technician, hrole]
  have hmgr : is_manager actor = false := by simp [is_manager, hrole]
  have hst : applyStatus iid inc (some ns) =
      ({ inc with status := ns }, [Flash.statusUpdated iid ns]) :=
    applyStatus_change iid inc ns hns hdiff
  have hch1 : resolveAssignee sv ≠
      ({ inc with status := ns } : Incident).assigned_to_id := by
    rw [ht]
    exact hchange
  have hself : resolveAssignee sv ≠ some actor.id := by
    rw [ht]
    simp [hother]
  have has : applyAssign actor { inc with status := ns } (some sv) =
      ({ inc with status := ns }, true) :=
    applyAssign_denied actor _ sv hch1 hmgr hself
  constructor
  · have hc := update_incident_committed s actor iid ⟨some ns, some sv⟩ inc hfind htech
    rw [hc]
    simp [hst, has]
  · rw [update_incident_tech s actor iid ⟨some ns, some sv⟩ inc hfind htech]
    simp [hst, has]

/-- C1 witness: alice (technician, id 2) posts status "Resolved" and assignee
"1" on incident 1 (assigned to her): the status commits, the assignment is
flashed as denied. -/
theorem c1_split_commit_witness :
    findIncident (update_incident storeOne aliceUser 1
        ⟨some "Resolved", some "1"⟩).store 1 =
      some { incidentOne with status := "Resolved" } ∧
    Flash.permissionDeniedAssign ∈
      (update_incident storeOne aliceUser 1 ⟨some "Resolved", some "1"⟩).flashes :=
  c1_split_commit storeOne aliceUser 1 incidentOne "Resolved" "1" 1
    (by decide) (by decide) (by decide) (by decide) (by decide) (by decide)
    (by decide)

/-- C2 counterexample: technician alice (id 2) is the current assignee of
incident 1 and posts a blank assignee field, i.e. a self-unassign request;
the code keeps the assignee and flashes a permission error, so non-managers
cannot self-unassign. -/
theorem c2_counterexample :
    (findIncident (update_incident storeOne aliceUser 1
        ⟨none, some ""⟩).store 1).map Incident.assigned_to_id =
      some (some 2) ∧
    Flash.permissionDeniedAssign ∈
      (update_incident storeOne aliceUser 1 ⟨none, some ""⟩).flashes := by
  decide

/-- C2 (amended): for a technician (non-manager) whose posted assignment
field resolves to a target different from the current assignee, the change
is applied iff the resolved target is `some` of the actor's own id; a target
of `none` (blank or non-positive field) is rejected with a permission flash,
so non-managers can self-assign but cannot self-unassign. -/
theorem c2_assignment_iff_self (s : Store) (actor : User) (iid : Nat)
    (inc : Incident) (sv : String) (st : Option String)
    (hfind : findIncident s iid = some inc)
    (hrole : actor.role = 2)
    (hch : resolveAssignee sv ≠ inc.assigned_to_id) :
    (resolveAssignee sv = some actor.id →
       (findIncident (update_incident s actor iid ⟨st, some sv⟩).store iid).map
           Incident.assigned_to_id = some (some actor.id)) ∧
    (resolveAssignee sv ≠ some actor.id →
       (findIncident (update_incident s actor iid ⟨st, some sv⟩).store iid).map
           Incident.assigned_to_id = some inc.assigned_to_id ∧
       Flash.permissionDeniedAssign ∈
         (update_incident s actor iid ⟨st, some sv⟩).flashes) := by
  have htech : is_technician actor = true := by simp [is_technician, hrole]
  have hmgr : is_manager actor = false := by simp [is_manager, hrole]
  have hasg : (applyStatus iid inc st).1.assigned_to_id = inc.assigned_to_id :=
    (applyStatus_frame iid inc st).2.2.2.1
  have hc := update_incident_committed s actor iid ⟨st, some sv⟩ inc hfind htech
  constructor
  · intro hself
    have has : applyAssign actor (applyStatus iid inc st).1 (some sv) =
        ({ (applyStatus iid inc st).1 with assigned_to_id := resolveAssignee sv },
         false) :=
      applyAssign_granted actor _ sv (by rw [hasg]; exact hch) (Or.inr hself)
    rw [hc]
    simp [has, hself]
  · intro hself
    have has : applyAssign actor (applyStatus iid inc st).1 (some sv) =
        ((applyStatus iid inc st).1, true) :=
      applyAssign_denied actor _ sv (by rw [hasg]; exact hch) hmgr hself
    constructor
    · rw [hc]
      simp [has, hasg]
    · rw [update_incident_tech s actor iid ⟨st, some sv⟩ inc hfind htech]
      simp [has]

/-- C2 witness: alice (technician, id 2) self-assigns the unassigned
incident of `storeTwo`; the assignment is applied. -/
theorem c2_assignment_iff_self_witness :
    (findIncident (update_incident storeTwo aliceUser 1
        ⟨none, some "2"⟩).store 1).map Incident.assigned_to_id =
      some (some aliceUser.id) :=
  (c2_assignment_iff_self storeTwo aliceUser 1 incidentTwo "2" none
    (by decide) (by decide) (by decide)).1 (by decide)

/-- C4 counterexample: a manager posts an update with no `assigned_to_id`
field at all against an incident whose assignee is set; the assignment block
is skipped entirely, so the assignee is not cleared, contradicting the claim
that an absent field resolves to "unassign". -/
theorem c4_counterexample :
    (findIncident (update_incident storeOne adminUser 1
        ⟨none, none⟩).store 1).map Incident.assigned_to_id =
      some (some 2) := by
  decide

/-- C4 (amended): when the `assigned_to_id` field is present but blank or
non-positive, the target resolves to "unassign" (`none`), and a manager's
request of this shape on an incident with an assignee clears the assignee;
an absent field instead skips the assignment portion entirely. -/
theorem c4_blank_unassigns (s : Store) (actor : User) (iid : Nat)
    (inc : Incident) (sv : String) (st : Option String) (a : Nat)
    (hfind : findIncident s iid = some inc)
    (hmgr : is_manager actor = true)
    (hres : resolveAssignee sv = none)
    (hassigned : inc.assigned_to_id = some a) :
    (findIncident (update_incident s actor iid ⟨st, some sv⟩).store iid).map
        Incident.assigned_to_id = some none := by
  have htech := manager_is_technician actor hmgr
  have hasg : (applyStatus iid inc st).1.assigned_to_id = inc.assigned_to_id :=
    (applyStatus_frame iid inc st).2.2.2.1
  have hch : resolveAssignee sv ≠ (applyStatus iid inc st).1.assigned_to_id := by
    rw [hres, hasg, hassigned]
    simp
  have has : applyAssign actor (applyStatus iid inc st).1 (some sv) =
      ({ (applyStatus iid inc st).1 with assigned_to_id := resolveAssignee sv },
       false) :=
    applyAssign_granted actor _ sv hch (Or.inl hmgr)
  rw [update_incident_committed s actor iid ⟨st, some sv⟩ inc hfind htech]
  simp [has, hres]

/-- C4 witness: the admin posts a blank assignee field on incident 1
(assigned to alice); the assignee is cleared. -/
theorem c4_blank_unassigns_witness :
    (findIncident (update_incident storeOne adminUser 1
        ⟨none, some ""⟩).store 1).map Incident.assigned_to_id = some none :=
  c4_blank_unassigns storeOne adminUser 1 incidentOne "" none 2
    (by decide) (by decide) (by decide) (by decide)

/-- C7: posting a status equal to the incident's current status leaves the
status unchanged and produces no status-change notification, whatever the
assignment portion does. -/
theorem c7_idempotent_status (s : Store) (actor : User) (iid : Nat)
    (inc : Incident) (ns : String) (af : Option String)
    (hfind : findIncident s iid = some inc)
    (htech : is_technician actor = true)
    (hsame : ns = inc.status) :
    (findIncident (update_incident s actor iid ⟨some ns, af⟩).store iid).map
        Incident.status = some inc.status ∧
    ∀ n ∈ (update_incident s actor iid ⟨some ns, af⟩).notifications,
      isStatusNotif n = false := by
  have hst : applyStatus iid inc (some ns) = (inc, []) :=
    applyStatus_same iid inc ns (Or.inr hsame)
  have hstat : (applyAssign actor inc af).1.status = inc.status :=
    (applyAssign_frame actor inc af).2.2.2.1
  constructor
  · rw [update_incident_committed s actor iid ⟨some ns, af⟩ inc hfind htech]
    simp [hst, hstat]
  · intro n hn
    rw [update_incident_tech s actor iid ⟨some ns, af⟩ inc hfind htech] at hn
    simp only [hst] at hn
    rw [statusNotifs_same _ actor iid inc.status _ hstat] at hn
    rw [List.append_nil] at hn
    exact assignmentNotifs_not_status _ iid inc.assigned_to_id _ n hn

/-- C7 witness: the admin re-posts the current status "InProgress" on
incident 1: status unchanged, no status notification. -/
theorem c7_idempotent_status_witness :
    (findIncident (update_incident storeOne adminUser 1
        ⟨some "InProgress", none⟩).store 1).map Incident.status =
      some incidentOne.status ∧
    ∀ n ∈ (update_incident storeOne adminUser 1
        ⟨some "InProgress", none⟩).notifications,
      isStatusNotif n = false :=
  c7_idempotent_status storeOne adminUser 1 incidentOne "InProgress" none
    (by decide) (by decide) (by decide)

/-- C10: a present-but-empty status field is treated as "no status change":
the committed status stays the current one (never the empty string) and no
status-change notification is emitted. -/
theorem c10_empty_status_noop (s : Store) (actor : User) (iid : Nat)
    (inc : Incident) (af : Option String)
    (hfind : findIncident s iid = some inc)
    (htech : is_technician actor = true) :
    (findIncident (update_incident s actor iid ⟨some "", af⟩).store iid).map
        Incident.status = some inc.status ∧
    ∀ n ∈ (update_incident s actor iid ⟨some "", af⟩).notifications,
      isStatusNotif n = false := by
  have hst : applyStatus iid inc (some "") = (inc, []) :=
    applyStatus_same iid inc "" (Or.inl rfl)
  have hstat : (applyAssign actor inc af).1.status = inc.status :=
    (applyAssign_frame actor inc af).2.2.2.1
  constructor
  · rw [update_incident_committed s actor iid ⟨some "", af⟩ inc hfind htech]
    simp [hst, hstat]
  · intro n hn
    rw [update_incident_tech s actor iid ⟨some "", af⟩ inc hfind htech] at hn
    simp only [hst] at hn
    rw [statusNotifs_same _ actor iid inc.status _ hstat] at hn
    rw [List.append_nil] at hn
    exact assignmentNotifs_not_status _ iid inc.assigned_to_id _ n hn

/-- C10 witness: alice posts an empty status field on incident 1: status
stays "InProgress" and no status notification is emitted. -/
theorem c10_empty_status_noop_witness :
    (findIncident (update_incident storeOne aliceUser 1
        ⟨some "", none⟩).store 1).map Incident.status =
      some incidentOne.status ∧
    ∀ n ∈ (update_incident storeOne aliceUser 1
        ⟨some "", none⟩).notifications,
      isStatusNotif n = false :=
  c10_empty_status_noop storeOne aliceUser 1 incidentOne none
    (by decide) (by decide)

/-- C8: whatever status or assignment changes an update applies, the
committed incident keeps its reporter reference, its priority and its
creation timestamp. -/
theorem c8_update_frame (s : Store) (actor : User) (iid : Nat)
    (form : UpdateForm) (inc inc' : Incident)
    (hfind : findIncident s iid = some inc)
    (hfind' : findIncident (update_incident s actor iid form).store iid =
      some inc') :
    inc'.reporter_id = inc.reporter_id ∧ inc'.priority = inc.priority ∧
      inc'.created_at = inc.created_at := by
  cases htech : is_technician actor with
  | true =>
    have hc := update_incident_committed s actor iid form inc hfind htech
    rw [hfind'] at hc
    have hinc' := Option.some.inj hc
    have hS := applyStatus_frame iid inc form.status
    have hA := applyAssign_frame actor (applyStatus iid inc form.status).1
      form.assigned_to_id
    rw [hinc']
    exact ⟨hA.1.trans hS.1, hA.2.1.trans hS.2.1, hA.2.2.1.trans hS.2.2.1⟩
  | false =>
    rw [update_incident_denied s actor iid form inc hfind htech] at hfind'
    have h2 : findIncident s iid = some inc' := hfind'
    rw [hfind] at h2
    rw [← Option.some.inj h2]
    exact ⟨rfl, rfl, rfl⟩

/-- C8 witness: the admin resolves and reassigns incident 1; reporter,
priority and creation timestamp are untouched. -/
theorem c8_update_frame_witness :
    ({ incidentOne with status := "Resolved", assigned_to_id := some 1 }
        : Incident).reporter_id = incidentOne.reporter_id ∧
    ({ incidentOne with status := "Resolved", assigned_to_id := some 1 }
        : Incident).priority = incidentOne.priority ∧
    ({ incidentOne with status := "Resolved", assigned_to_id := some 1 }
        : Incident).created_at = incidentOne.created_at :=
  c8_update_frame storeOne adminUser 1 ⟨some "Resolved", some "1"⟩
    incidentOne
    ({ incidentOne with status := "Resolved", assigned_to_id := some 1 })
    (by decide) (by decide)

/-- C9: a create request whose title, description or priority is absent or
empty is rejected with the validation flash, persists nothing and emits no
notification. -/
theorem c9_create_validation (s : Store) (actor : User) (now : Nat)
    (form : CreateForm)
    (h : (isBlank form.title || isBlank form.description ||
      isBlank form.priority) = true) :
    create_incident s actor now form = ⟨s, [Flash.allFieldsRequired], []⟩ := by
  unfold create_incident
  simp [h]

/-- C9 witness: bob posts a create request with an empty description: the
store is unchanged and nothing is queued. -/
theorem c9_create_validation_witness :
    create_incident storeOne bobUser 5 ⟨some "t", some "", some "High"⟩ =
      ⟨storeOne, [Flash.allFieldsRequired], []⟩ :=
  c9_create_validation storeOne bobUser 5 ⟨some "t", some "", some "High"⟩
    (by decide)

/-- C6: when a permitted update posts a non-empty status different from the
current one (so the status changes), a status-change notification goes to
the reporter iff the reporter lookup succeeds with a non-empty email, and
additionally to the committed assignee iff one is set, is not the acting
user, and resolves to an account with a non-empty email. -/
theorem c6_status_notifications (s : Store) (actor : User) (iid : Nat)
    (form : UpdateForm) (inc inc' : Incident) (ns : String)
    (hfind : findIncident s iid = some inc)
    (htech : is_technician actor = true)
    (hns : form.status = some ns) (hne : ns ≠ "") (hdiff : ns ≠ inc.status)
    (hfind' : findIncident (update_incident s actor iid form).store iid =
      some inc') :
    ((∃ e, Notification.statusChangedReporter e iid ns ∈
        (update_incident s actor iid form).notifications) ↔
      ∃ rep, findUser s inc.reporter_id = some rep ∧ rep.email ≠ "") ∧
    ((∃ e, Notification.statusChangedAssignee e iid ns ∈
        (update_incident s actor iid form).notifications) ↔
      ∃ aid au, inc'.assigned_to_id = some aid ∧ aid ≠ actor.id ∧
        findUser s aid = some au ∧ au.email ≠ "") := by
  have hc := update_incident_committed s actor iid form inc hfind htech
  rw [hfind'] at hc
  have hinc' := Option.some.inj hc
  have hst : applyStatus iid inc form.status =
      ({ inc with status := ns }, [Flash.statusUpdated iid ns]) := by
    rw [hns]
    exact applyStatus_change iid inc ns hne hdiff
  have hmstat : (applyAssign actor (applyStatus iid inc form.status).1
      form.assigned_to_id).1.status = ns := by
    rw [(applyAssign_frame actor (applyStatus iid inc form.status).1
      form.assigned_to_id).2.2.2.1, hst]
  have hmrep : (applyAssign actor (applyStatus iid inc form.status).1
      form.assigned_to_id).1.reporter_id = inc.reporter_id := by
    rw [(applyAssign_frame actor (applyStatus iid inc form.status).1
      form.assigned_to_id).1, (applyStatus_frame iid inc form.status).1]
  have hchg : (applyAssign actor (applyStatus iid inc form.status).1
      form.assigned_to_id).1.status ≠ inc.status := by
    rw [hmstat]
    exact hdiff
  rw [hinc']
  rw [update_incident_tech s actor iid form inc hfind htech]
  simp only [List.mem_append]
  rw [statusNotifs_changed _ actor iid inc.status _ hchg,
    statusNotifReporter_save, statusNotifAssignee_save]
  constructor
  · constructor
    · rintro ⟨e, he⟩
      rcases he with h1 | h2
      · have := assignmentNotifs_not_status _ iid inc.assigned_to_id _ _ h1
        simp [isStatusNotif] at this
      · rcases List.mem_append.mp h2 with h3 | h4
        · rw [← hmstat] at h3
          have := (statusNotifReporter_iff s iid _).mp ⟨e, h3⟩
          rw [hmrep] at this
          exact this
        · obtain ⟨e', he'⟩ := statusNotifAssignee_only s actor iid _ _ h4
          exact absurd he' (by simp)
    · rintro ⟨rep, hrep2, hemail⟩
      obtain ⟨e, hmem⟩ := (statusNotifReporter_iff s iid _).mpr
        ⟨rep, by rw [hmrep]; exact hrep2, hemail⟩
      rw [hmstat] at hmem
      exact ⟨e, Or.inr (List.mem_append.mpr (Or.inl hmem))⟩
  · constructor
    · rintro ⟨e, he⟩
      rcases he with h1 | h2
      · have := assignmentNotifs_not_status _ iid inc.assigned_to_id _ _ h1
        simp [isStatusNotif] at this
      · rcases List.mem_append.mp h2 with h3 | h4
        · obtain ⟨e', he'⟩ := statusNotifReporter_only s iid _ _ h3
          exact absurd he' (by simp)
        · rw [← hmstat] at h4
          exact (statusNotifAssignee_iff s actor iid _).mp ⟨e, h4⟩
    · rintro ⟨aid, au, haid, hne2, hau, hemail⟩
      obtain ⟨e, hmem⟩ := (statusNotifAssignee_iff s actor iid _).mpr
        ⟨aid, au, haid, hne2, hau, hemail⟩
      rw [hmstat] at hmem
      exact ⟨e, Or.inr (List.mem_append.mpr (Or.inr hmem))⟩

/-- C6 witness: the spec scenario — the admin resolves incident 1 while
alice is the assignee; the reporter bob and alice both exist with non-empty
emails, so both sides of the characterization are satisfiable. -/
theorem c6_status_notifications_witness :
    ((∃ e, Notification.statusChangedReporter e 1 "Resolved" ∈
        (update_incident storeOne adminUser 1
          ⟨some "Resolved", none⟩).notifications) ↔
      ∃ rep, findUser storeOne incidentOne.reporter_id = some rep ∧
        rep.email ≠ "") ∧
    ((∃ e, Notification.statusChangedAssignee e 1 "Resolved" ∈
        (update_incident storeOne adminUser 1
          ⟨some "Resolved", none⟩).notifications) ↔
      ∃ aid au, ({ incidentOne with status := "Resolved" }
          : Incident).assigned_to_id = some aid ∧ aid ≠ adminUser.id ∧
        findUser storeOne aid = some au ∧ au.email ≠ "") :=
  c6_status_notifications storeOne adminUser 1 ⟨some "Resolved", none⟩
    incidentOne ({ incidentOne with status := "Resolved" }) "Resolved"
    (by decide) (by decide) (by decide) (by decide) (by decide) (by decide)

/-- C3 counterexample: a create followed by a manager update whose status
field is "Exploded" leaves a persisted incident with a status outside the
four enumerated values: the update route performs no status validation. -/
theorem c3_counterexample :
    ¬ ∀ inc ∈ (runOps storeEmpty
        [Op.create bobUser 5 ⟨some "Disk full", some "d", some "High"⟩,
         Op.update adminUser 1 ⟨some "Exploded", none⟩]).incidents,
      statusOk inc.status := by
  decide

/-- C3 (amended): every persisted status is one of the four enumerated
values provided every update request's status field is absent, empty, or one
of the four — creation always writes "New", and updates copy the posted
field verbatim without validation. -/
theorem c3_status_values (s : Store) (ops : List Op)
    (hs : ∀ inc ∈ s.incidents, statusOk inc.status)
    (hops : ∀ op ∈ ops, opStatusOk op) :
    ∀ inc ∈ (runOps s ops).incidents, statusOk inc.status := by
  induction ops generalizing s with
  | nil => exact hs
  | cons op rest ih =>
    have h1 : ∀ inc ∈ (applyOp s op).incidents, statusOk inc.status := by
      cases op with
      | create a n f => exact create_incident_statusOk s a n f hs
      | update a i f =>
        apply update_incident_statusOk s a i f hs
        intro v hv
        have h2 := hops (Op.update a i f) (List.mem_cons_self _ _)
        simpa [opStatusOk, hv] using h2
    exact ih (applyOp s op) h1 (fun o ho => hops o (List.mem_cons_of_mem _ ho))

/-- C3 witness: a create followed by an update to "Resolved" keeps the
persisted incident's status within the four enumerated values. -/
theorem c3_status_values_witness :
    statusOk (⟨1, "Disk full", "d", "Resolved", "High", 5, 3, none⟩
      : Incident).status :=
  c3_status_values storeEmpty
    [Op.create bobUser 5 ⟨some "Disk full", some "d", some "High"⟩,
     Op.update adminUser 1 ⟨some "Resolved", none⟩]
    (by intro inc hinc; simp [storeEmpty] at hinc)
    (by
      intro op hop
      simp only [List.mem_cons, List.mem_singleton, List.not_mem_nil] at hop
      rcases hop with rfl | rfl | h
      · show True
        trivial
      · show "Resolved" = "" ∨ statusOk "Resolved"
        right
        decide
      · exact absurd h (by simp))
    ⟨1, "Disk full", "d", "Resolved", "High", 5, 3, none⟩
    (by decide)

/-- C5 counterexample: a manager posts assignment target "999", which
matches no user record; the update commits the dangling assignee
reference without any existence check. -/
theorem c5_counterexample :
    ¬ assigneeInv (update_incident storeOne adminUser 1
      ⟨none, some "999"⟩).store := by
  intro h
  have h999 := h ⟨1, "Disk full", "root fs at 100 percent", "InProgress",
      "High", 10, 3, some 999⟩ (by decide) 999 rfl
  obtain ⟨u, hu, hid⟩ := h999
  have hu2 : u ∈ [adminUser, aliceUser, bobUser] := hu
  fin_cases hu2 <;> simp_all [adminUser, aliceUser, bobUser]

/-- C5 (amended): every persisted assignee reference points to an existing
user provided every update request's resolved assignment target names an
existing user — creation persists unassigned incidents, and updates copy
the resolved target without any existence check. -/
theorem c5_assignee_refs (s : Store) (ops : List Op)
    (hs : assigneeInv s)
    (hops : ∀ op ∈ ops, opAssigneeOk s.users op) :
    assigneeInv (runOps s ops) := by
  induction ops generalizing s with
  | nil => exact hs
  | cons op rest ih =>
    have h1 : assigneeInv (applyOp s op) := by
      cases op with
      | create a n f => exact create_incident_assigneeInv s a n f hs
      | update a i f =>
        apply update_incident_assigneeInv s a i f hs
        intro v t hv ht
        have h2 := hops (Op.update a i f) (List.mem_cons_self _ _)
        simpa [opAssigneeOk, hv, ht] using h2
    have h2 : ∀ o ∈ rest, opAssigneeOk (applyOp s op).users o := by
      intro o ho
      rw [applyOp_users]
      exact hops o (List.mem_cons_of_mem _ ho)
    exact ih (applyOp s op) h1 h2

/-- C5 witness: the admin reassigns incident 1 to alice (user id 2, which
exists); the assignee invariant is preserved. -/
theorem c5_assignee_refs_witness :
    assigneeInv (runOps storeTwo
      [Op.update adminUser 1 ⟨some "Resolved", some "2"⟩]) :=
  c5_assignee_refs storeTwo
    [Op.update adminUser 1 ⟨some "Resolved", some "2"⟩]
    (by
      intro inc hinc a ha
      fin_cases hinc
      exact absurd ha (by simp [incidentTwo]))
    (by
      intro op hop
      simp only [List.mem_singleton] at hop
      subst hop
      show ∃ u ∈ storeTwo.users, u.id = 2
      exact ⟨aliceUser, by decide, rfl⟩)

end IMS
